import Mathlib

/-!
Verification development for the `runtime-developer` page of the
substrate-developer-hub website (src/website/pages/en/who/runtime-developer.js).

The page is a React component.  Its `render` method destructures a site
configuration (`baseUrl`, `docsUrl`) and an optional `language` string
(defaulting to the empty string), builds two URL helpers (`docUrl`,
`pageUrl`), and returns a fixed tree: one `HomeSplash` hero banner followed
by a `Timeline` of five `Timespot` entries, each with one `h3` heading, one
paragraph, and a list of `Button`s carrying `href` attributes.

We embed this shallowly: the element tree becomes a typed `Page` record,
rendering becomes the pure function `renderPage`, and the URL helpers become
string functions.  JavaScript string truthiness (`s ? a : b`) is embedded as
`if s ≠ "" then a else b`.
-/

/-- Site configuration consumed by the page: the `baseUrl` and `docsUrl`
fields destructured from `siteConfig` in the source. -/
structure SiteConfig where
  baseUrl : String
  docsUrl : String
  deriving DecidableEq, Repr

/-- Props of the `RuntimeDeveloper` component: `config` and an optional
`language` (the source writes `language = ""` as a destructuring default,
so an absent language is `none` here). -/
structure Props where
  config : SiteConfig
  language : Option String
  deriving DecidableEq, Repr

/-- Source line 30: `const docsPart = docsUrl ? docsUrl + "/" : ""` with
JS truthiness on strings embedded as a non-emptiness test. -/
def docsPart (c : SiteConfig) : String :=
  if c.docsUrl ≠ "" then c.docsUrl ++ "/" else ""

/-- Source line 31: `const langPart = language ? language + "/" : ""`. -/
def langPart (language : String) : String :=
  if language ≠ "" then language ++ "/" else ""

/-- Source line 32: `const docUrl = doc => baseUrl + docsPart + langPart + doc`. -/
def docUrl (c : SiteConfig) (language doc : String) : String :=
  c.baseUrl ++ docsPart c ++ langPart language ++ doc

/-- Source line 33: `const pageUrl = page => baseUrl + (language ? language + "/" : "") + page`.
Defined in the source but not used by any element of this page. -/
def pageUrl (c : SiteConfig) (language page : String) : String :=
  c.baseUrl ++ (if language ≠ "" then language ++ "/" else "") ++ page

/-- Inline content of a paragraph: plain text or an inline `code` element. -/
inductive Inline where
  | text (s : String)
  | code (s : String)
  deriving DecidableEq, Repr

/-- One `Button` element: its `variant`, `href` and `className` attributes
and its text label. -/
structure Button where
  variant : String
  href : String
  className : String
  label : String
  deriving DecidableEq, Repr

/-- One `Timespot` entry of the timeline: exactly one `h3` heading, exactly
one paragraph (a list of inline nodes), and a list of buttons, mirroring the
JSX of each `<Timespot>` block. -/
structure Timespot where
  heading : String
  paragraph : List Inline
  buttons : List Button
  deriving DecidableEq, Repr

/-- Props passed to the `HomeSplash` hero banner (source lines 142-148). -/
structure HomeSplashProps where
  siteConfig : SiteConfig
  language : String
  title : String
  tagline : String
  padding : Nat
  deriving DecidableEq, Repr

/-- The rendered page: one hero banner followed by the timeline entries. -/
structure Page where
  splash : HomeSplashProps
  timeline : List Timespot
  deriving DecidableEq, Repr

/-- The `RuntimeDeveloperTimeline` element (source lines 35-138): the fixed
ordered list of five `Timespot` entries, transcribed from the JSX. -/
def runtimeDeveloperTimeline (c : SiteConfig) (language : String) : List Timespot :=
  [ { heading := "It\x27s dangerous to go alone!"
    , paragraph :=
        [ Inline.text "Before you start your journey you should become familiar with resources that can help you along the way. We have high level documentation which can help clarify unknown terms or give you a bigger picture about what Substrate is. We have a "
        , Inline.code "[substrate]"
        , Inline.text " StackOverflow tag which you can use to ask technical questions or find existing answers. Finally we have a friendly and technical chat room of developers who are happy to help you at any point during your journey."
        ]
    , buttons :=
        [ { variant := "secondary"
          , href := docUrl c language "quickstart/getting-started"
          , className := "m-1 primary-color"
          , label := "High Level Docs" }
        , { variant := "secondary"
          , href := "https://stackoverflow.com/questions/tagged/substrate"
          , className := "m-1 primary-color"
          , label := "StackOverflow" }
        , { variant := "secondary"
          , href := "https://riot.im/app/#/room/!HzySYSaIhtyWrwiwEV:matrix.org"
          , className := "m-1 primary-color"
          , label := "Riot Chat" }
        ] }
  , { heading := "Install Substrate"
    , paragraph :=
        [ Inline.text "The first thing you need to do is set up Substrate on your computer! The instructions vary depending on which operating system you use, so take a look at the guide here to find the instructions that work for you."
        ]
    , buttons :=
        [ { variant := "secondary"
          , href := docUrl c language "quickstart/installing-substrate"
          , className := "m-1 primary-color"
          , label := "Installation Instructions" }
        ] }
  , { heading := "Substrate Collectables Workshop"
    , paragraph :=
        [ Inline.text "Next follow our Substrate Collectables Workshop to get a deep dive into runtime development. We will walk you through the end to end process of building a non-fungible token DApp chain, running your chain, and even building a user interface!"
        ]
    , buttons :=
        [ { variant := "secondary"
          , href := "https://substrate-developer-hub.github.io/substrate-collectables-workshop/"
          , className := "m-1 primary-color"
          , label := "Start the Workshop" }
        ] }
  , { heading := "Reference Level Documentation"
    , paragraph :=
        [ Inline.text "Now that you are more familiar with Substrate and runtime development, you can jump into the reference level documentation which lives next to the core Substrate code. To start, you can try investigating our Substrate Runtime Module Library (SRML) by searching for \"srml\". You should now be able to read the code which powers these modules and extend your knowledge by looking at common patterns found within them."
        ]
    , buttons :=
        [ { variant := "secondary"
          , href := "/rustdocs/v1.0/"
          , className := "m-1 primary-color"
          , label := "Reference Docs" }
        ] }
  , { heading := "Buidl"
    , paragraph :=
        [ Inline.text "You are now ready to start building your own Runtime logic! Do not forget about the community and documentation resources that we have equipped you with on this journey."
        ]
    , buttons :=
        [ { variant := "secondary"
          , href := c.baseUrl
          , className := "m-1 primary-color"
          , label := "Back to Home" }
        ] }
  ]

/-- The `render` method of `RuntimeDeveloper` (source lines 27-154): resolve
the optional language to `""`, then return the hero banner followed by the
timeline. -/
def renderPage (p : Props) : Page :=
  let language := p.language.getD ""
  { splash :=
      { siteConfig := p.config
      , language := language
      , title := "Runtime Developer"
      , tagline := "So you wanna build blockchains..."
      , padding := 0 }
  , timeline := runtimeDeveloperTimeline p.config language }

/-- All buttons of the rendered page, in document order. -/
def allButtons (p : Props) : List Button :=
  (renderPage p).timeline.flatMap Timespot.buttons

/-- All hyperlink targets (`href` attributes) of the rendered page, in
document order. -/
def pageHrefs (p : Props) : List String :=
  (allButtons p).map Button.href

/-- The configuration-independent textual content of the page: for each
timeline entry its heading, its paragraph, and its button labels. -/
def staticContent (pg : Page) : List (String × List Inline × List String) :=
  pg.timeline.map fun t => (t.heading, t.paragraph, t.buttons.map Button.label)

/-- State-passing embedding of the `render` call: React gives `render`
access to `this.props` and `this.state`; the method body contains no
assignment (no `setState`, no write to `this.props`), so the embedded call
returns the page together with the props and state it was given. -/
def renderSt {σ : Type} (p : Props) (st : σ) : Page × Props × σ :=
  (renderPage p, p, st)

/-- Modelled from the spec: the documentation URL as the spec phrases it,
`baseUrl + docsUrl/ (if set) + language/ (if set) + path`. -/
def specDocUrl (baseUrl docsUrl language path : String) : String :=
  baseUrl ++ (if docsUrl ≠ "" then docsUrl ++ "/" else "")
    ++ (if language ≠ "" then language ++ "/" else "") ++ path

/-- The four hyperlinks of the page that are fixed strings, not built from
the site configuration: three external sites and the absolute rustdocs path. -/
def constantHrefs : List String :=
  [ "https://stackoverflow.com/questions/tagged/substrate"
  , "https://riot.im/app/#/room/!HzySYSaIhtyWrwiwEV:matrix.org"
  , "https://substrate-developer-hub.github.io/substrate-collectables-workshop/"
  , "/rustdocs/v1.0/" ]

/-- C1: for every configuration, language and path, `docUrl` returns the
concatenation `baseUrl ++ (docsUrl ++ "/" if docsUrl nonempty) ++
(language ++ "/" if language nonempty) ++ path`. -/
theorem docUrl_concat_spec (c : SiteConfig) (language path : String) :
    docUrl c language path = specDocUrl c.baseUrl c.docsUrl language path := by
  unfold docUrl specDocUrl docsPart langPart
  rfl

/-- C2: on the concrete input baseUrl `/`, docsUrl `docs`, language `en`,
path `quickstart/getting-started`, the helper returns
`/docs/en/quickstart/getting-started`. -/
theorem docUrl_example :
    docUrl { baseUrl := "/", docsUrl := "docs" } "en" "quickstart/getting-started"
      = "/docs/en/quickstart/getting-started" := by
  decide

/-- Helper: the hyperlink list of the rendered page, evaluated to its seven
entries in document order. -/
theorem pageHrefs_eq (p : Props) :
    pageHrefs p =
      [ docUrl p.config (p.language.getD "") "quickstart/getting-started"
      , "https://stackoverflow.com/questions/tagged/substrate"
      , "https://riot.im/app/#/room/!HzySYSaIhtyWrwiwEV:matrix.org"
      , docUrl p.config (p.language.getD "") "quickstart/installing-substrate"
      , "https://substrate-developer-hub.github.io/substrate-collectables-workshop/"
      , "/rustdocs/v1.0/"
      , p.config.baseUrl ] := rfl

/-- C3 counterexample: with baseUrl `/`, docsUrl `docs`, language `en`, the
StackOverflow button href appears in the page but is not a concatenation
`docUrl` of the configuration segments with any path, so not every page
hyperlink has that form. -/
theorem pageHrefs_not_all_docUrl_form :
    ¬ (∀ url ∈ pageHrefs { config := { baseUrl := "/", docsUrl := "docs" }, language := some "en" },
        ∃ path, url = docUrl { baseUrl := "/", docsUrl := "docs" } "en" path) := by
  intro h
  obtain ⟨p, hp⟩ :=
    h "https://stackoverflow.com/questions/tagged/substrate" (by decide)
  rw [show docUrl { baseUrl := "/", docsUrl := "docs" } "en" p = "/docs/en/" ++ p from rfl] at hp
  have hd := congrArg String.data hp
  rw [String.data_append] at hd
  rw [show ("/docs/en/" : String).data = '/' :: ("docs/en/" : String).data from rfl] at hd
  simp at hd

/-- C3 amended: every hyperlink of the rendered page is either a `docUrl`
concatenation of the configuration segments with some path, or the bare
`baseUrl`, or one of four fixed constant URLs (StackOverflow, Riot chat, the
collectables workshop, and the absolute rustdocs path). -/
theorem pageHrefs_classified (p : Props) (url : String) (h : url ∈ pageHrefs p) :
    (∃ path, url = docUrl p.config (p.language.getD "") path)
      ∨ url = p.config.baseUrl ∨ url ∈ constantHrefs := by
  rw [pageHrefs_eq] at h
  simp only [List.mem_cons, List.not_mem_nil, or_false] at h
  rcases h with h | h | h | h | h | h | h
  · exact Or.inl ⟨"quickstart/getting-started", h⟩
  · subst h; exact Or.inr (Or.inr (by decide))
  · subst h; exact Or.inr (Or.inr (by decide))
  · exact Or.inl ⟨"quickstart/installing-substrate", h⟩
  · subst h; exact Or.inr (Or.inr (by decide))
  · subst h; exact Or.inr (Or.inr (by decide))
  · exact Or.inr (Or.inl h)

/-- C3 witness: the classification theorem applied to the rustdocs link of a
concrete configuration. -/
theorem pageHrefs_classified_witness :
    ("/rustdocs/v1.0/" ∈
        pageHrefs { config := { baseUrl := "/", docsUrl := "docs" }, language := some "en" })
    ∧ ((∃ path, "/rustdocs/v1.0/"
          = docUrl { baseUrl := "/", docsUrl := "docs" } "en" path)
        ∨ "/rustdocs/v1.0/" = "/"
        ∨ "/rustdocs/v1.0/" ∈ constantHrefs) :=
  ⟨by decide,
    pageHrefs_classified
      { config := { baseUrl := "/", docsUrl := "docs" }, language := some "en" }
      "/rustdocs/v1.0/" (by decide)⟩

/-- C4: rendering is deterministic: two renders with equal props produce the
same hyperlink list (same set and order) and the same page; the embedding is
a pure function, with no randomness and no external fetch. -/
theorem render_deterministic (p q : Props) (h : p = q) :
    pageHrefs p = pageHrefs q ∧ renderPage p = renderPage q := by
  subst h; exact ⟨rfl, rfl⟩

/-- C4 witness: determinism at a concrete configuration. -/
theorem render_deterministic_witness :
    pageHrefs { config := { baseUrl := "/", docsUrl := "docs" }, language := some "en" }
        = pageHrefs { config := { baseUrl := "/", docsUrl := "docs" }, language := some "en" }
    ∧ renderPage { config := { baseUrl := "/", docsUrl := "docs" }, language := some "en" }
        = renderPage { config := { baseUrl := "/", docsUrl := "docs" }, language := some "en" } :=
  render_deterministic _ _ rfl

/-- C5: for every configuration the rendered page is exactly one hero banner
(`HomeSplash` with the given config and fixed title and tagline) followed by
the fixed ordered sequence of five timeline entries with these headings; the
entries carry 3, 1, 1, 1 and 1 action buttons respectively, and each entry
has exactly one heading and one paragraph by construction of `Timespot`. -/
theorem renderPage_structure (p : Props) :
    (renderPage p).splash =
      { siteConfig := p.config
      , language := p.language.getD ""
      , title := "Runtime Developer"
      , tagline := "So you wanna build blockchains..."
      , padding := 0 }
    ∧ (renderPage p).timeline.map Timespot.heading =
        [ "It\x27s dangerous to go alone!"
        , "Install Substrate"
        , "Substrate Collectables Workshop"
        , "Reference Level Documentation"
        , "Buidl" ]
    ∧ (renderPage p).timeline.map (fun t => t.buttons.length) = [3, 1, 1, 1, 1] :=
  ⟨rfl, rfl, rfl⟩

/-- C6: the headings, paragraph texts and button labels of the timeline are
identical for any two configurations: this content is static. -/
theorem staticContent_config_independent (p q : Props) :
    staticContent (renderPage p) = staticContent (renderPage q) := rfl

/-- C7: a render call writes nothing: in the state-passing embedding the
props (site configuration and language) and the component state come back
unchanged. -/
theorem render_preserves_inputs {σ : Type} (p : Props) (st : σ) :
    (renderSt p st).2.1 = p ∧ (renderSt p st).2.2 = st :=
  ⟨rfl, rfl⟩

/-- C8: the language prop is optional: an absent language resolves to the
empty string, rendering still succeeds and equals the render with an empty
language, and `docUrl` then omits the language segment. -/
theorem language_default_empty (c : SiteConfig) (path : String) :
    (({ config := c, language := none } : Props).language.getD "") = ""
    ∧ docUrl c "" path = c.baseUrl ++ docsPart c ++ path
    ∧ renderPage { config := c, language := none }
        = renderPage { config := c, language := some "" } := by
  refine ⟨rfl, ?_, rfl⟩
  unfold docUrl langPart
  simp

/-- C9: for every configuration the Back to Home button links to exactly the
`baseUrl`, with no docs, language or path segment appended. -/
theorem back_to_home_href (p : Props) :
    ((allButtons p).filter (fun b => b.label == "Back to Home")).map Button.href
      = [p.config.baseUrl] := rfl

/-- C10: for every configuration the Reference Docs button links to the
constant `/rustdocs/v1.0/`, independent of the configuration. -/
theorem reference_docs_href (p : Props) :
    ((allButtons p).filter (fun b => b.label == "Reference Docs")).map Button.href
      = ["/rustdocs/v1.0/"] := rfl
